import Mathlib

/-!
Shallow embedding of the token lifecycle and proxy handlers of `src/app.py`
(a Flask OAuth2 proxy in front of the GoHighLevel API), together with
theorems settling the specification claims about it.

Modelling conventions:
* The Flask `session` dict is a record of `Option` fields (`none` = key
  absent; a key stored with Python `None` is also `none`, which is faithful
  for every read the code performs via `session.get`).
* Network calls (`requests.post` / `requests.get`) are oracles passed in as
  functions; every POST to the token endpoint is additionally logged in a
  `List TokenRequest` so that "performs a network call" is a statement about
  the returned log.
* Python exceptions (`KeyError` from a missing dict key,
  `requests.HTTPError` from `raise_for_status`) are modelled by `Except`
  with the `PyErr` error type. When a handler raises, Flask does not commit
  the session cookie, so the error branches return the original session.
* Python truthiness on the optional strings involved (`None` and `""` are
  falsy) is the `truthy` predicate.
-/

namespace RebderApp

/-- Python truthiness of an optional string: `None` and `""` are falsy. -/
def truthy : Option String → Bool
  | none => false
  | some s => !s.isEmpty

/-- The Flask session fields used by `app.py` (absent key = `none`). -/
structure Session where
  access_token : Option String
  refresh_token : Option String
  token_expires_at : Option Int
  location_id : Option String
  company_id : Option String
  deriving Repr, DecidableEq

/-- Parsed JSON body of a token-endpoint response; every field optional. -/
structure TokenResponse where
  access_token : Option String
  refresh_token : Option String
  expires_in : Option Int
  locationId : Option String
  companyId : Option String
  deriving Repr, DecidableEq

/-- An HTTP response from the token endpoint, with its JSON body parsed. -/
structure HttpResp where
  status : Nat
  body : TokenResponse
  deriving Repr, DecidableEq

/-- Python exceptions raised by the token helpers: `KeyError k` for a
missing dict key `k`, `httpError s` for `raise_for_status` on status `s`. -/
inductive PyErr where
  | keyError : String → PyErr
  | httpError : Nat → PyErr
  deriving Repr, DecidableEq

/-- A POST to the token endpoint, as logged for network-call accounting.
`code` is sent for the authorization-code grant, `refresh_token` (possibly
Python `None`) for the refresh grant. -/
structure TokenRequest where
  grant_type : String
  code : Option String
  refresh_token : Option String
  deriving Repr, DecidableEq

/-- `store_tokens(tokens, location_id)` — app.py lines 32-38.
Reads `tokens["access_token"]` (KeyError if absent), always overwrites
`refresh_token` with `tokens.get("refresh_token")`, sets
`token_expires_at = now + tokens.get("expires_in", 3600) - 30`, sets
`location_id` to the argument if truthy else `tokens["locationId"]`
(KeyError if absent), and `company_id` to `tokens["companyId"]`
(KeyError if absent). On a KeyError Flask does not commit the session,
hence the error case carries no updated session. -/
def store_tokens (tokens : TokenResponse) (location_id : Option String)
    (now : Int) (s : Session) : Except PyErr Session :=
  match tokens.access_token with
  | none => .error (.keyError "access_token")
  | some tok =>
    let expires_in := tokens.expires_in.getD 3600
    let loc : Except PyErr (Option String) :=
      if truthy location_id then .ok location_id
      else
        match tokens.locationId with
        | none => .error (.keyError "locationId")
        | some l => .ok (some l)
    match loc with
    | .error e => .error e
    | .ok locv =>
      match tokens.companyId with
      | none => .error (.keyError "companyId")
      | some comp =>
        .ok { access_token := some tok
              refresh_token := tokens.refresh_token
              token_expires_at := some (now + expires_in - 30)
              location_id := locv
              company_id := some comp }

/-- `token_expired()` — app.py lines 40-41: true when the key is absent or
`now >= session["token_expires_at"]`. -/
def token_expired (now : Int) (s : Session) : Bool :=
  match s.token_expires_at with
  | none => true
  | some t => decide (t ≤ now)

/-- `refresh_access_token()` — app.py lines 43-53: unconditionally POSTs the
refresh grant with the stored (possibly absent) refresh token, raises on a
non-2xx status, then calls `store_tokens(tokens, session.get("location_id"))`.
The single POST is logged. -/
def refresh_access_token (oracle : Option String → HttpResp) (now : Int)
    (s : Session) : Except PyErr Session × List TokenRequest :=
  let req : TokenRequest :=
    { grant_type := "refresh_token", code := none, refresh_token := s.refresh_token }
  let resp := oracle s.refresh_token
  if 400 ≤ resp.status then (.error (.httpError resp.status), [req])
  else (store_tokens resp.body s.location_id now s, [req])

/-- `get_valid_access_token()` — app.py lines 55-58: refresh first when
expired, then return `session.get("access_token")`. Returns the token, the
resulting session, and the log of token-endpoint POSTs performed. -/
def get_valid_access_token (oracle : Option String → HttpResp) (now : Int)
    (s : Session) : Except PyErr (Option String × Session) × List TokenRequest :=
  if token_expired now s then
    match refresh_access_token oracle now s with
    | (.ok s2, calls) => (.ok (s2.access_token, s2), calls)
    | (.error e, calls) => (.error e, calls)
  else (.ok (s.access_token, s), [])

/-- Query parameters of a request to `/callback`. -/
structure CallbackReq where
  error : Option String
  code : Option String
  locationId : Option String
  deriving Repr, DecidableEq

/-- The credential envelope built by `build_response` inside `callback`. -/
structure Envelope where
  access_token : Option String
  refresh_token : Option String
  expires_in : Int
  token_type : String
  location_id : Option String
  company_id : Option String
  deriving Repr, DecidableEq

/-- `build_response()` — app.py lines 80-88. -/
def build_response (now : Int) (s : Session) : Envelope :=
  { access_token := s.access_token
    refresh_token := s.refresh_token
    expires_in := max (s.token_expires_at.getD 0 - now) 0
    token_type := "bearer"
    location_id := s.location_id
    company_id := s.company_id }

/-- Outcome of the `/callback` handler. `authError` and `noCode` are the two
400 responses; `exception` is an uncaught Python exception (Flask 500). -/
inductive CallbackResult where
  | authError : String → CallbackResult
  | noCode : CallbackResult
  | envelope : Envelope → CallbackResult
  | exception : PyErr → CallbackResult
  deriving Repr, DecidableEq

/-- `callback()` — app.py lines 71-116. Branches exactly as the source:
error param present; no session token and no code; no session token and a
code (authorization-code exchange through `store_tokens`); session token
present and expired (refresh); session token present and valid. -/
def callback (exchangeOracle : String → HttpResp)
    (refreshOracle : Option String → HttpResp) (now : Int)
    (req : CallbackReq) (s : Session) :
    CallbackResult × Session × List TokenRequest :=
  match req.error with
  | some e => (.authError e, s, [])
  | none =>
    if !truthy s.access_token && !truthy req.code then (.noCode, s, [])
    else if !truthy s.access_token && truthy req.code then
      let tokReq : TokenRequest :=
        { grant_type := "authorization_code", code := req.code, refresh_token := none }
      let resp := exchangeOracle (req.code.getD "")
      if 400 ≤ resp.status then (.exception (.httpError resp.status), s, [tokReq])
      else
        match store_tokens resp.body req.locationId now s with
        | .error e => (.exception e, s, [tokReq])
        | .ok s2 => (.envelope (build_response now s2), s2, [tokReq])
    else if token_expired now s then
      match refresh_access_token refreshOracle now s with
      | (.ok s2, calls) => (.envelope (build_response now s2), s2, calls)
      | (.error e, calls) => (.exception e, s, calls)
    else (.envelope (build_response now s), s, [])

/-- An inbound request to a proxy route: the `Authorization` header value
(if any) and the query parameters, as an association list. -/
structure ProxyReq where
  authHeader : Option String
  args : List (String × String)
  deriving Repr, DecidableEq

/-- Outcome of a proxy route up to the outbound upstream call.
`upstream tok ps` abstracts the upstream GET carrying header
`Authorization: Bearer tok` and query parameters `ps`. -/
inductive ProxyResult where
  | unauthorized : ProxyResult
  | upstream : String → List (String × String) → ProxyResult
  | exception : PyErr → ProxyResult
  deriving Repr, DecidableEq

/-- `search_locations()` — app.py lines 124-143, up to the upstream GET:
the access token is obtained solely from `get_valid_access_token()` (the
inbound `Authorization` header is never read), a falsy token yields the
401 response, and all inbound query params are passed through. -/
def search_locations (req : ProxyReq) (refreshOracle : Option String → HttpResp)
    (now : Int) (s : Session) : ProxyResult × Session × List TokenRequest :=
  match get_valid_access_token refreshOracle now s with
  | (.error e, calls) => (.exception e, s, calls)
  | (.ok (tok, s2), calls) =>
    if truthy tok then (.upstream (tok.getD "") req.args, s2, calls)
    else (.unauthorized, s2, calls)

/-- First value bound to key `k` in an association list (a Python dict
lookup). -/
def lookup (k : String) : List (String × String) → Option String
  | [] => none
  | (k2, v) :: rest => if k2 = k then some v else lookup k rest

/-- Python `d[k] = v`: replace an existing binding, else append. -/
def setKey (k v : String) (ps : List (String × String)) :
    List (String × String) :=
  if (lookup k ps).isSome then
    ps.map (fun p => if p.1 = k then (k, v) else p)
  else ps ++ [(k, v)]

/-- Tenant resolution of `get_campaigns()` — app.py lines 337-343: if the
key `locationId` is present among the query params (a presence check, not a
truthiness check) the params are used as-is; otherwise the session value is
used when truthy; otherwise the 400 error message is returned. The request
body is never consulted. -/
def get_campaigns_params (args : List (String × String)) (s : Session) :
    Except String (List (String × String)) :=
  if (lookup "locationId" args).isSome then .ok args
  else if truthy s.location_id then
    .ok (setKey "locationId" (s.location_id.getD "") args)
  else .error "No locationId found in session or request."

/-- Tenant resolution of `search_contacts()` — app.py lines 415-423: if
`body.get("locationId")` is truthy the body is used as-is; otherwise the
session value is used when truthy; otherwise the 400 error message is
returned. -/
def search_contacts_body (body : List (String × String)) (s : Session) :
    Except String (List (String × String)) :=
  if truthy (lookup "locationId" body) then .ok body
  else if truthy s.location_id then
    .ok (setKey "locationId" (s.location_id.getD "") body)
  else .error "No locationId found in request or session."

/-- An inbound request to `/search_contacts`: query params and parsed JSON
body (string-valued fields, the ones the handler inspects). -/
structure ContactsReq where
  args : List (String × String)
  body : List (String × String)
  deriving Repr, DecidableEq

/-- The body `search_contacts` sends upstream: app.py only consults the
JSON body and the session — `request.args` is never read in this handler,
exactly as in the source (the `args` field is unused). -/
def search_contacts_resolve (req : ContactsReq) (s : Session) :
    Except String (List (String × String)) :=
  search_contacts_body req.body s

/-- One summary record from the conversations search response; `id` is read
with `conv.get("id")` and may be absent. -/
structure ConvSummary where
  id : Option String
  deriving Repr, DecidableEq

/-- An HTTP response from `/conversations/:id`: status, JSON parse result
(`none` = body does not parse), and raw text. -/
structure DetailResp where
  status : Nat
  json : Option String
  text : String
  deriving Repr, DecidableEq

/-- One entry of `detailed_conversations`: a parsed detail object, the
inline `Could not parse detail` object `(id, raw)`, or the inline
`Error fetching conversation` object `(id, status_code, raw)`. -/
inductive DetailEntry where
  | detail : String → DetailEntry
  | parseError : String → String → DetailEntry
  | fetchError : String → Nat → String → DetailEntry
  deriving Repr, DecidableEq

/-- The entry produced for one conversation id — app.py lines 244-251. -/
def detail_entry (oracle : String → DetailResp) (cid : String) : DetailEntry :=
  let resp := oracle cid
  if resp.status = 200 then
    match resp.json with
    | some j => .detail j
    | none => .parseError cid resp.text
  else .fetchError cid resp.status resp.text

/-- The enrichment loop of `get_conversations_with_details()` — app.py
lines 239-251: summaries with a falsy `id` are skipped (`continue`); for
each other summary one detail GET is issued in order and its entry
appended, errors inline. -/
def enrich_conversations (oracle : String → DetailResp) :
    List ConvSummary → List DetailEntry
  | [] => []
  | conv :: rest =>
    if truthy conv.id then
      detail_entry oracle (conv.id.getD "") :: enrich_conversations oracle rest
    else enrich_conversations oracle rest

/-! ## Helper lemmas -/

/-- Inversion for a successful `store_tokens`: every field of the stored
session in terms of the response and the `location_id` argument. -/
theorem store_tokens_ok_fields (tokens : TokenResponse) (loc : Option String)
    (now : Int) (s s2 : Session) (h : store_tokens tokens loc now s = .ok s2) :
    s2.access_token = tokens.access_token ∧
    s2.refresh_token = tokens.refresh_token ∧
    s2.token_expires_at = some (now + tokens.expires_in.getD 3600 - 30) ∧
    s2.location_id = (if truthy loc then loc else tokens.locationId) ∧
    s2.company_id = tokens.companyId := by
  rcases tokens with ⟨at_, rt, ei, li, ci⟩
  rcases at_ with _ | tok
  · simp [store_tokens] at h
  · rcases ci with _ | comp
    · by_cases hl : truthy loc = true
      · simp [store_tokens, hl] at h
      · rcases li with _ | l <;>
          simp [store_tokens, hl] at h
    · by_cases hl : truthy loc = true
      · simp [store_tokens, hl] at h
        subst h
        simp [hl]
      · rcases li with _ | l
        · simp [store_tokens, hl] at h
        · simp [store_tokens, hl] at h
          subst h
          simp [hl]

/-- A refresh performs exactly one POST to the token endpoint, carrying the
stored (possibly absent) refresh token. -/
theorem refresh_access_token_calls (oracle : Option String → HttpResp)
    (now : Int) (s : Session) :
    (refresh_access_token oracle now s).2 =
      [{ grant_type := "refresh_token", code := none,
         refresh_token := s.refresh_token }] := by
  unfold refresh_access_token
  dsimp only
  split <;> rfl

/-- With a truthy session access token and no `error` param, `callback`
reduces to its session branch (steps 3-4 of the source). -/
theorem callback_session_branch (exO : String → HttpResp)
    (rfO : Option String → HttpResp) (now : Int) (c l : Option String)
    (s : Session) (h : truthy s.access_token = true) :
    callback exO rfO now ⟨none, c, l⟩ s =
      (if token_expired now s then
        match refresh_access_token rfO now s with
        | (.ok s2, calls) => (.envelope (build_response now s2), s2, calls)
        | (.error e, calls) => (.exception e, s, calls)
      else (.envelope (build_response now s), s, [])) := by
  simp [callback, h]

/-- A successful refresh means the server answered below 400 and
`store_tokens` succeeded on its body with the stored location id. -/
theorem refresh_ok_store (oracle : Option String → HttpResp) (now : Int)
    (s s2 : Session) (h : (refresh_access_token oracle now s).1 = .ok s2) :
    (oracle s.refresh_token).status < 400 ∧
    store_tokens (oracle s.refresh_token).body s.location_id now s = .ok s2 := by
  unfold refresh_access_token at h
  dsimp only at h
  split at h
  · simp at h
  · next hst => exact ⟨by omega, h⟩

/-- A store error surfaces as the result of the refresh when the server
answered below 400. -/
theorem refresh_store_error (oracle : Option String → HttpResp) (now : Int)
    (s : Session) (e : PyErr)
    (hst : (oracle s.refresh_token).status < 400)
    (h : store_tokens (oracle s.refresh_token).body s.location_id now s =
      .error e) :
    (refresh_access_token oracle now s).1 = .error e := by
  unfold refresh_access_token
  dsimp only
  rw [if_neg (by omega), h]

/-- `store_tokens` raises `KeyError` on `companyId` when the response has an
access token, the location argument is truthy, and `companyId` is absent. -/
theorem store_tokens_missing_company (tokens : TokenResponse)
    (loc : Option String) (now : Int) (s : Session) (a : String)
    (ha : tokens.access_token = some a) (hl : truthy loc = true)
    (hc : tokens.companyId = none) :
    store_tokens tokens loc now s = .error (.keyError "companyId") := by
  rcases tokens with ⟨at_, rt, ei, li, ci⟩
  simp_all [store_tokens]

/-- `store_tokens` raises `KeyError` on `locationId` when the response has
an access token, the location argument is falsy, and `locationId` is
absent from the response. -/
theorem store_tokens_missing_location (tokens : TokenResponse)
    (loc : Option String) (now : Int) (s : Session) (a : String)
    (ha : tokens.access_token = some a) (hl : truthy loc = false)
    (hli : tokens.locationId = none) :
    store_tokens tokens loc now s = .error (.keyError "locationId") := by
  rcases tokens with ⟨at_, rt, ei, li, ci⟩
  simp_all [store_tokens]

/-! ## Claim C2 -/

/-- Claim C2 counterexample: a Credential Record with no refresh token and
a passed expiry. `getValidAccessToken` does perform a network call — the
refresh POST is sent (carrying an absent refresh token) and the server's
rejection surfaces as an HTTP error; there is no `MissingRefreshToken`
short-circuit in the code. -/
theorem refresh_called_without_refresh_token :
    get_valid_access_token (fun _ => ⟨401, ⟨none, none, none, none, none⟩⟩)
        100 ⟨some "A", none, some 100, some "L", some "C"⟩ =
      (.error (.httpError 401),
       [{ grant_type := "refresh_token", code := none,
          refresh_token := none }]) ∧
    [({ grant_type := "refresh_token", code := none, refresh_token := none } :
        TokenRequest)] ≠ ([] : List TokenRequest) :=
  ⟨by rfl, by simp⟩

/-- Claim C2 (corrected): when the stored refresh token is absent and the
token is expired, `getValidAccessToken` still performs exactly one POST to
the token endpoint, carrying the absent refresh token, and when the server
rejects it (status ≥ 400) the failure is the untyped `raise_for_status`
HTTP error — the code has no `MissingRefreshToken` check. -/
theorem get_valid_access_token_missing_refresh_behavior
    (oracle : Option String → HttpResp) (now : Int) (s : Session)
    (h1 : s.refresh_token = none) (h2 : token_expired now s = true) :
    (get_valid_access_token oracle now s).2 =
      [{ grant_type := "refresh_token", code := none,
         refresh_token := none }] ∧
    (400 ≤ (oracle none).status →
      (get_valid_access_token oracle now s).1 =
        .error (.httpError (oracle none).status)) := by
  have hcalls := refresh_access_token_calls oracle now s
  rw [h1] at hcalls
  constructor
  · unfold get_valid_access_token
    rw [h2]
    simp only [if_true]
    rcases hra : refresh_access_token oracle now s with ⟨res, calls⟩
    rw [hra] at hcalls
    simp only at hcalls
    cases res <;> simp_all
  · intro hst
    have hra : refresh_access_token oracle now s =
        (.error (.httpError (oracle none).status),
         [{ grant_type := "refresh_token", code := none,
            refresh_token := none }]) := by
      unfold refresh_access_token
      dsimp only
      rw [h1, if_pos hst]
    unfold get_valid_access_token
    rw [h2]
    simp only [if_true]
    rw [hra]

/-- Witness for claim C2 at a concrete input. -/
theorem get_valid_access_token_missing_refresh_behavior_witness :
    (⟨some "A", none, some 100, some "L", some "C"⟩ :
        Session).refresh_token = none ∧
    token_expired 100 ⟨some "A", none, some 100, some "L", some "C"⟩ = true ∧
    (get_valid_access_token (fun _ => ⟨500, ⟨none, none, none, none, none⟩⟩)
        100 ⟨some "A", none, some 100, some "L", some "C"⟩).2 =
      [{ grant_type := "refresh_token", code := none,
         refresh_token := none }] :=
  ⟨rfl, by decide,
   (get_valid_access_token_missing_refresh_behavior
      (fun _ => ⟨500, ⟨none, none, none, none, none⟩⟩) 100
      ⟨some "A", none, some 100, some "L", some "C"⟩ rfl (by decide)).1⟩

/-! ## Claim C3 -/

/-- Claim C3 counterexample: a refresh whose response omits
`refresh_token` does NOT leave the prior refresh token intact — the stored
value is overwritten with the absent value (`tokens.get("refresh_token")`
is `None`), losing the previous token `"R"`. -/
theorem refresh_clobbers_refresh_token :
    refresh_access_token
        (fun _ => ⟨200, ⟨some "A2", none, some 3600, none, some "C"⟩⟩) 100
        ⟨some "A", some "R", some 100, some "L", some "C"⟩ =
      (.ok ⟨some "A2", none, some 3670, some "L", some "C"⟩,
       [{ grant_type := "refresh_token", code := none,
          refresh_token := some "R" }]) ∧
    (⟨some "A2", none, some 3670, some "L", some "C"⟩ :
        Session).refresh_token ≠ some "R" :=
  ⟨by rfl, by simp⟩

/-- Claim C3 (corrected): after a successful refresh the stored refresh
token always equals the response's `refresh_token` field, so a response
omitting it clobbers the prior token with `None`; a response omitting
`locationId` leaves `location_id` unchanged when one was already stored
(truthy); and a response omitting `companyId` does not leave `company_id`
unchanged — it makes the refresh raise `KeyError "companyId"`. -/
theorem refresh_field_preservation_behavior
    (oracle : Option String → HttpResp) (now : Int) (s s2 : Session)
    (h : (refresh_access_token oracle now s).1 = .ok s2) :
    s2.refresh_token = (oracle s.refresh_token).body.refresh_token ∧
    (truthy s.location_id = true → s2.location_id = s.location_id) ∧
    (∀ oracle2 : Option String → HttpResp, ∀ a : String,
      (oracle2 s.refresh_token).status < 400 →
      (oracle2 s.refresh_token).body.access_token = some a →
      truthy s.location_id = true →
      (oracle2 s.refresh_token).body.companyId = none →
      (refresh_access_token oracle2 now s).1 =
        .error (.keyError "companyId")) := by
  obtain ⟨hst, hok⟩ := refresh_ok_store oracle now s s2 h
  obtain ⟨hat, hrt, hexp, hloc, hcomp⟩ :=
    store_tokens_ok_fields _ _ _ _ _ hok
  refine ⟨hrt, ?_, ?_⟩
  · intro hl
    rw [hloc, if_pos hl]
  · intro oracle2 a h400 ha hl hc
    exact refresh_store_error oracle2 now s _ h400
      (store_tokens_missing_company _ _ _ _ a ha hl hc)

/-- Witness for claim C3 at a concrete input. -/
theorem refresh_field_preservation_behavior_witness :
    (refresh_access_token
        (fun _ => ⟨200, ⟨some "A2", some "R2", some 3600, some "L2", some "C2"⟩⟩)
        100 ⟨some "A", some "R", some 100, some "L", some "C"⟩).1 =
      .ok ⟨some "A2", some "R2", some 3670, some "L", some "C2"⟩ ∧
    (⟨some "A2", some "R2", some 3670, some "L", some "C2"⟩ :
        Session).refresh_token = some "R2" ∧
    (⟨some "A2", some "R2", some 3670, some "L", some "C2"⟩ :
        Session).location_id = some "L" ∧
    (refresh_access_token (fun _ => ⟨200, ⟨some "A3", none, none, none, none⟩⟩)
        100 ⟨some "A", some "R", some 100, some "L", some "C"⟩).1 =
      .error (.keyError "companyId") := by
  have t := refresh_field_preservation_behavior
    (fun _ => ⟨200, ⟨some "A2", some "R2", some 3600, some "L2", some "C2"⟩⟩)
    100 ⟨some "A", some "R", some 100, some "L", some "C"⟩
    ⟨some "A2", some "R2", some 3670, some "L", some "C2"⟩ (by rfl)
  exact ⟨by rfl, t.1, t.2.1 (by decide),
    t.2.2 (fun _ => ⟨200, ⟨some "A3", none, none, none, none⟩⟩) "A3"
      (by decide) (by rfl) (by decide) (by rfl)⟩

/-! ## Claim C6 -/

/-- Claim C6 counterexample: the stored `location_id` `"L1"` is preserved
even though the refresh response supplies a new value `"L2"` — the second
half of the claim ("when the response does supply one, the new value
replaces the old") is false. -/
theorem refresh_ignores_new_location_id :
    refresh_access_token
        (fun _ => ⟨200, ⟨some "A2", some "R2", some 3600, some "L2", some "C2"⟩⟩)
        100 ⟨some "A", some "R", some 100, some "L1", some "C1"⟩ =
      (.ok ⟨some "A2", some "R2", some 3670, some "L1", some "C2"⟩,
       [{ grant_type := "refresh_token", code := none,
          refresh_token := some "R" }]) ∧
    (⟨some "A2", some "R2", some 3670, some "L1", some "C2"⟩ :
        Session).location_id ≠ some "L2" :=
  ⟨by rfl, by simp⟩

/-- Claim C6 (corrected): once a truthy `location_id` is stored, a refresh
never overwrites it — even when the response supplies a new `locationId`;
only when no truthy `location_id` is stored is the response's `locationId`
used, and in that case a response omitting it makes the refresh raise
`KeyError "locationId"` rather than preserving anything. -/
theorem refresh_location_id_behavior (oracle : Option String → HttpResp)
    (now : Int) (s s2 : Session)
    (h : (refresh_access_token oracle now s).1 = .ok s2) :
    (truthy s.location_id = true → s2.location_id = s.location_id) ∧
    (truthy s.location_id = false →
      s2.location_id = (oracle s.refresh_token).body.locationId) ∧
    (∀ oracle2 : Option String → HttpResp, ∀ a : String,
      truthy s.location_id = false →
      (oracle2 s.refresh_token).status < 400 →
      (oracle2 s.refresh_token).body.access_token = some a →
      (oracle2 s.refresh_token).body.locationId = none →
      (refresh_access_token oracle2 now s).1 =
        .error (.keyError "locationId")) := by
  obtain ⟨hst, hok⟩ := refresh_ok_store oracle now s s2 h
  obtain ⟨hat, hrt, hexp, hloc, hcomp⟩ :=
    store_tokens_ok_fields _ _ _ _ _ hok
  refine ⟨?_, ?_, ?_⟩
  · intro hl
    rw [hloc, if_pos hl]
  · intro hl
    rw [hloc, if_neg (by simp [hl])]
  · intro oracle2 a hl h400 ha hli
    exact refresh_store_error oracle2 now s _ h400
      (store_tokens_missing_location _ _ _ _ a ha hl hli)

/-- Witness for claim C6 at a concrete input. -/
theorem refresh_location_id_behavior_witness :
    (refresh_access_token
        (fun _ => ⟨200, ⟨some "A2", some "R2", some 3600, some "L2", some "C2"⟩⟩)
        100 ⟨some "A", some "R", some 100, some "L1", some "C1"⟩).1 =
      .ok ⟨some "A2", some "R2", some 3670, some "L1", some "C2"⟩ ∧
    (⟨some "A2", some "R2", some 3670, some "L1", some "C2"⟩ :
        Session).location_id = some "L1" :=
  ⟨by rfl,
   (refresh_location_id_behavior
      (fun _ => ⟨200, ⟨some "A2", some "R2", some 3600, some "L2", some "C2"⟩⟩)
      100 ⟨some "A", some "R", some 100, some "L1", some "C1"⟩
      ⟨some "A2", some "R2", some 3670, some "L1", some "C2"⟩ (by rfl)).1
      (by decide)⟩

/-! ## Claim C4 -/

/-- Claim C4 (confirmed): for every successful store (token exchange or
refresh), the stored expiry is `now + expires_in - 30` with `expires_in`
defaulting to 3600 when absent; and in the concrete scenario, a code
exchange with `expires_in = 60` at `t0` stores `expires_at = t0 + 30`, and
`getValidAccessToken` at `t0 + 31` performs the refresh POST. -/
theorem store_tokens_expiry_margin (tokens : TokenResponse)
    (loc : Option String) (now : Int) (s s2 : Session)
    (h : store_tokens tokens loc now s = .ok s2) :
    s2.token_expires_at = some (now + tokens.expires_in.getD 3600 - 30) ∧
    (∀ t0 : Int, ∀ oracle : Option String → HttpResp, ∀ s3 : Session,
      store_tokens ⟨some "A", some "R", some 60, some "L1", some "C1"⟩
          none t0 s3 =
        .ok ⟨some "A", some "R", some (t0 + 30), some "L1", some "C1"⟩ ∧
      (get_valid_access_token oracle (t0 + 31)
          ⟨some "A", some "R", some (t0 + 30), some "L1", some "C1"⟩).2 =
        [{ grant_type := "refresh_token", code := none,
           refresh_token := some "R" }]) := by
  constructor
  · exact (store_tokens_ok_fields tokens loc now s s2 h).2.2.1
  · intro t0 oracle s3
    constructor
    · simp [store_tokens, truthy]
      omega
    · have hexp : token_expired (t0 + 31) ⟨some "A", some "R",
          some (t0 + 30), some "L1", some "C1"⟩ = true := by
        simp [token_expired]
      unfold get_valid_access_token
      rw [hexp]
      simp only [if_true]
      rcases hra : refresh_access_token oracle (t0 + 31)
          ⟨some "A", some "R", some (t0 + 30), some "L1", some "C1"⟩ with ⟨res, calls⟩
      have := refresh_access_token_calls oracle (t0 + 31)
        ⟨some "A", some "R", some (t0 + 30), some "L1", some "C1"⟩
      rw [hra] at this
      cases res <;> simp_all

/-- Witness for claim C4 at a concrete input. -/
theorem store_tokens_expiry_margin_witness :
    store_tokens ⟨some "A", some "R", some 60, some "L1", some "C1"⟩ none 0
        ⟨none, none, none, none, none⟩ =
      .ok ⟨some "A", some "R", some 30, some "L1", some "C1"⟩ ∧
    (⟨some "A", some "R", some 30, some "L1", some "C1"⟩ :
        Session).token_expires_at =
      some (0 + ((some 60 : Option Int).getD 3600) - 30) :=
  ⟨by rfl,
   (store_tokens_expiry_margin
      ⟨some "A", some "R", some 60, some "L1", some "C1"⟩ none 0
      ⟨none, none, none, none, none⟩
      ⟨some "A", some "R", some 30, some "L1", some "C1"⟩ (by rfl)).1⟩

/-! ## Claims C5 and C9 -/

/-- With no truthy session access token, a truthy `code` and no `error`
param, `callback` reduces to its authorization-code exchange branch
(step 2 of the source). -/
theorem callback_exchange_branch (exO : String → HttpResp)
    (rfO : Option String → HttpResp) (now : Int) (req : CallbackReq)
    (s : Session) (he : req.error = none)
    (hna : truthy s.access_token = false) (hc : truthy req.code = true) :
    callback exO rfO now req s =
      (if 400 ≤ (exO (req.code.getD "")).status then
        (.exception (.httpError (exO (req.code.getD "")).status), s,
         [{ grant_type := "authorization_code", code := req.code,
            refresh_token := none }])
      else
        match store_tokens (exO (req.code.getD "")).body req.locationId now s with
        | .error e =>
          (.exception e, s,
           [{ grant_type := "authorization_code", code := req.code,
              refresh_token := none }])
        | .ok s2 =>
          (.envelope (build_response now s2), s2,
           [{ grant_type := "authorization_code", code := req.code,
              refresh_token := none }])) := by
  rcases req with ⟨err, c, l⟩
  simp only at he
  subst he
  simp only at hc
  simp [callback, hna, hc]

/-- Claim C5 counterexample: a code exchange at `t0 = 0` whose response has
`expires_in = 30` stores `expires_at = t0`, so the token is already expired
at the very same instant and `getValidAccessToken` immediately performs a
refresh POST — contradicting "triggers no refresh call" for an arbitrary
valid code exchange. -/
theorem callback_short_expiry_triggers_immediate_refresh :
    callback
        (fun _ => ⟨200, ⟨some "A", some "R", some 30, some "L1", some "C1"⟩⟩)
        (fun _ => ⟨500, ⟨none, none, none, none, none⟩⟩) 0
        ⟨none, some "CODE", some "L1"⟩ ⟨none, none, none, none, none⟩ =
      (.envelope ⟨some "A", some "R", 0, "bearer", some "L1", some "C1"⟩,
       ⟨some "A", some "R", some 0, some "L1", some "C1"⟩,
       [{ grant_type := "authorization_code", code := some "CODE",
          refresh_token := none }]) ∧
    (get_valid_access_token (fun _ => ⟨500, ⟨none, none, none, none, none⟩⟩)
        0 ⟨some "A", some "R", some 0, some "L1", some "C1"⟩).2 =
      [{ grant_type := "refresh_token", code := none,
         refresh_token := some "R" }] :=
  ⟨by rfl, by rfl⟩

/-- Claim C5 (corrected): a successful authorization-code exchange followed
at the same instant by `getValidAccessToken` returns exactly the access
token the exchange stored and performs no token-endpoint POST — provided
the response's `expires_in` (default 3600) exceeds the 30-second safety
margin; with `expires_in ≤ 30` the stored token is already expired and an
immediate refresh is triggered instead. -/
theorem exchange_then_get_same_token (exO : String → HttpResp)
    (rfO : Option String → HttpResp) (now : Int) (req : CallbackReq)
    (s s2 : Session) (he : req.error = none)
    (hna : truthy s.access_token = false) (hc : truthy req.code = true)
    (hst : (exO (req.code.getD "")).status < 400)
    (hok : store_tokens (exO (req.code.getD "")).body req.locationId now s =
      .ok s2)
    (hmargin : 30 < (exO (req.code.getD "")).body.expires_in.getD 3600) :
    callback exO rfO now req s =
      (.envelope (build_response now s2), s2,
       [{ grant_type := "authorization_code", code := req.code,
          refresh_token := none }]) ∧
    get_valid_access_token rfO now s2 = (.ok (s2.access_token, s2), []) ∧
    s2.access_token = (exO (req.code.getD "")).body.access_token := by
  obtain ⟨hat, hrt, hexp, hloc, hcomp⟩ := store_tokens_ok_fields _ _ _ _ _ hok
  have hne : token_expired now s2 = false := by
    unfold token_expired
    rw [hexp]
    simp only [decide_eq_false_iff_not, not_le]
    omega
  refine ⟨?_, ?_, hat⟩
  · rw [callback_exchange_branch exO rfO now req s he hna hc,
      if_neg (by omega), hok]
  · unfold get_valid_access_token
    rw [hne]
    simp

/-- Witness for claim C5 at a concrete input. -/
theorem exchange_then_get_same_token_witness :
    callback
        (fun _ => ⟨200, ⟨some "A", some "R", some 60, some "L1", some "C1"⟩⟩)
        (fun _ => ⟨500, ⟨none, none, none, none, none⟩⟩) 0
        ⟨none, some "CODE", some "L1"⟩ ⟨none, none, none, none, none⟩ =
      (.envelope ⟨some "A", some "R", 30, "bearer", some "L1", some "C1"⟩,
       ⟨some "A", some "R", some 30, some "L1", some "C1"⟩,
       [{ grant_type := "authorization_code", code := some "CODE",
          refresh_token := none }]) ∧
    get_valid_access_token (fun _ => ⟨500, ⟨none, none, none, none, none⟩⟩)
        0 ⟨some "A", some "R", some 30, some "L1", some "C1"⟩ =
      (.ok (some "A", ⟨some "A", some "R", some 30, some "L1", some "C1"⟩),
       []) := by
  have t := exchange_then_get_same_token
    (fun _ => ⟨200, ⟨some "A", some "R", some 60, some "L1", some "C1"⟩⟩)
    (fun _ => ⟨500, ⟨none, none, none, none, none⟩⟩) 0
    ⟨none, some "CODE", some "L1"⟩ ⟨none, none, none, none, none⟩
    ⟨some "A", some "R", some 30, some "L1", some "C1"⟩
    rfl (by decide) (by decide) (by decide) (by rfl) (by decide)
  exact ⟨t.1, t.2.1⟩

/-- Claim C9 counterexample: a 2xx token-endpoint response lacking
`access_token` makes the callback raise the untyped Python
`KeyError "access_token"` (an uncaught exception, surfaced as a 500) — not
a typed `MalformedTokenResponse`, which does not exist in the code. The
session is left unchanged (no record is stored). -/
theorem exchange_missing_access_token_keyerror :
    callback
        (fun _ => ⟨200, ⟨none, some "R", some 3600, some "L1", some "C1"⟩⟩)
        (fun _ => ⟨200, ⟨none, none, none, none, none⟩⟩) 0
        ⟨none, some "CODE", some "L1"⟩ ⟨none, none, none, none, none⟩ =
      (.exception (.keyError "access_token"),
       ⟨none, none, none, none, none⟩,
       [{ grant_type := "authorization_code", code := some "CODE",
          refresh_token := none }]) := by rfl

/-- Claim C9 (corrected): for every 2xx token-endpoint response lacking
`access_token`, the exchange stores no record (the session is returned
unchanged) but fails with the untyped `KeyError "access_token"` raised by
`store_tokens`, not with a typed `MalformedTokenResponse`. -/
theorem exchange_malformed_response_behavior (exO : String → HttpResp)
    (rfO : Option String → HttpResp) (now : Int) (req : CallbackReq)
    (s : Session) (he : req.error = none)
    (hna : truthy s.access_token = false) (hc : truthy req.code = true)
    (hst : (exO (req.code.getD "")).status < 400)
    (hmiss : (exO (req.code.getD "")).body.access_token = none) :
    callback exO rfO now req s =
      (.exception (.keyError "access_token"), s,
       [{ grant_type := "authorization_code", code := req.code,
          refresh_token := none }]) := by
  have hstore : store_tokens (exO (req.code.getD "")).body req.locationId
      now s = .error (.keyError "access_token") := by
    unfold store_tokens
    rw [hmiss]
  rw [callback_exchange_branch exO rfO now req s he hna hc,
    if_neg (by omega), hstore]

/-- Witness for claim C9 at a concrete input. -/
theorem exchange_malformed_response_behavior_witness :
    callback
        (fun _ => ⟨201, ⟨none, some "R", none, some "L1", some "C1"⟩⟩)
        (fun _ => ⟨200, ⟨none, none, none, none, none⟩⟩) 5
        ⟨none, some "XYZ", none⟩ ⟨none, none, none, none, none⟩ =
      (.exception (.keyError "access_token"),
       ⟨none, none, none, none, none⟩,
       [{ grant_type := "authorization_code", code := some "XYZ",
          refresh_token := none }]) :=
  exchange_malformed_response_behavior
    (fun _ => ⟨201, ⟨none, some "R", none, some "L1", some "C1"⟩⟩)
    (fun _ => ⟨200, ⟨none, none, none, none, none⟩⟩) 5
    ⟨none, some "XYZ", none⟩ ⟨none, none, none, none, none⟩
    rfl (by decide) (by decide) (by decide) (by rfl)

/-! ## Claim C1 -/

/-- The token handed out by a successful `get_valid_access_token` is the
access token of the resulting session. -/
theorem get_valid_token_is_session_token (oracle : Option String → HttpResp)
    (now : Int) (s s2 : Session) (tok : Option String)
    (calls : List TokenRequest)
    (h : get_valid_access_token oracle now s = (.ok (tok, s2), calls)) :
    tok = s2.access_token := by
  unfold get_valid_access_token at h
  split at h
  · rcases hra : refresh_access_token oracle now s with ⟨res, cs⟩
    rw [hra] at h
    rcases res with e | s3
    · simp at h
    · simp at h
      obtain ⟨⟨h1, h2⟩, _⟩ := h
      rw [← h1, h2]
  · simp only [Prod.mk.injEq, Except.ok.injEq] at h
    obtain ⟨⟨h1, h2⟩, _⟩ := h
    rw [← h1, ← h2]

/-- Claim C1 counterexample: an inbound request carrying both an explicit
`Authorization: Bearer H` header and an `access_token=Q` query parameter,
against a session holding valid token `"S"`: the upstream call is made with
the session token `"S"` (the query params are merely forwarded), so neither
explicit form takes precedence and session lookup is not bypassed. -/
theorem search_locations_header_token_not_used :
    search_locations ⟨some "Bearer H", [("access_token", "Q")]⟩
        (fun _ => ⟨500, ⟨none, none, none, none, none⟩⟩) 0
        ⟨some "S", some "R", some 100, some "L", some "C"⟩ =
      (.upstream "S" [("access_token", "Q")],
       ⟨some "S", some "R", some 100, some "L", some "C"⟩, []) ∧
    "S" ≠ "H" ∧ "S" ≠ "Q" :=
  ⟨by rfl, by simp, by simp⟩

/-- Claim C1 (corrected): the proxy handler resolves the upstream bearer
token solely from the session via `getValidAccessToken` — its result is
independent of the inbound `Authorization` header, and whenever an upstream
call is made its bearer token is the (possibly refreshed) session token
while the inbound query params are only forwarded as upstream params.
There is no three-tier token precedence and no refresh bypass. -/
theorem search_locations_token_from_session_only (a1 a2 : Option String)
    (args : List (String × String)) (rfO : Option String → HttpResp)
    (now : Int) (s : Session) :
    search_locations ⟨a1, args⟩ rfO now s =
      search_locations ⟨a2, args⟩ rfO now s ∧
    (∀ req : ProxyReq, ∀ tok : String, ∀ ps : List (String × String),
      ∀ s2 : Session, ∀ calls : List TokenRequest,
      search_locations req rfO now s = (.upstream tok ps, s2, calls) →
      some tok = s2.access_token ∧ ps = req.args) := by
  constructor
  · rfl
  · intro req tok ps s2 calls h
    rcases hg : get_valid_access_token rfO now s with ⟨res, cs⟩
    rcases res with e | ⟨tok0, s20⟩
    · simp [search_locations, hg] at h
    · have htok := get_valid_token_is_session_token rfO now s s20 tok0 cs hg
      by_cases ht : truthy tok0 = true
      · simp [search_locations, hg, ht] at h
        obtain ⟨⟨h1, h2⟩, h3, _⟩ := h
        rcases tok0 with _ | t
        · simp [truthy] at ht
        · simp only [Option.getD_some] at h1
          exact ⟨by rw [← h1, ← h3, htok], h2.symm⟩
      · simp only [Bool.not_eq_true] at ht
        simp [search_locations, hg, ht] at h

/-- Witness for claim C1 at a concrete input. -/
theorem search_locations_token_from_session_only_witness :
    search_locations ⟨some "Bearer H", [("limit", "5")]⟩
        (fun _ => ⟨500, ⟨none, none, none, none, none⟩⟩) 0
        ⟨some "S", some "R", some 100, some "L", some "C"⟩ =
      (.upstream "S" [("limit", "5")],
       ⟨some "S", some "R", some 100, some "L", some "C"⟩, []) ∧
    some "S" = (⟨some "S", some "R", some 100, some "L", some "C"⟩ :
      Session).access_token := by
  refine ⟨by rfl, ?_⟩
  exact ((search_locations_token_from_session_only (some "Bearer H") none
    [("limit", "5")] (fun _ => ⟨500, ⟨none, none, none, none, none⟩⟩) 0
    ⟨some "S", some "R", some 100, some "L", some "C"⟩).2
    ⟨some "Bearer H", [("limit", "5")]⟩ "S" [("limit", "5")]
    ⟨some "S", some "R", some 100, some "L", some "C"⟩ [] (by rfl)).1

/-! ## Claim C10 -/

/-- Claim C10 (confirmed): when the session already holds a (truthy) access
token and no `error` param is supplied, the `code` and `locationId` query
params are ignored — the handler behaves exactly as with no code at all, no
authorization-code exchange is performed (every token-endpoint POST it makes
is a refresh grant), and when the stored token is not expired it returns the
existing session's envelope with no network call at all. -/
theorem callback_ignores_code_with_session (exO : String → HttpResp)
    (rfO : Option String → HttpResp) (now : Int) (c l : Option String)
    (s : Session) (h : truthy s.access_token = true) :
    callback exO rfO now ⟨none, c, l⟩ s =
      callback exO rfO now ⟨none, none, none⟩ s ∧
    (∀ r ∈ (callback exO rfO now ⟨none, c, l⟩ s).2.2,
      r.grant_type = "refresh_token") ∧
    (token_expired now s = false →
      callback exO rfO now ⟨none, c, l⟩ s =
        (.envelope (build_response now s), s, [])) := by
  refine ⟨?_, ?_, ?_⟩
  · rw [callback_session_branch exO rfO now c l s h,
      callback_session_branch exO rfO now none none s h]
  · intro r hr
    rw [callback_session_branch exO rfO now c l s h] at hr
    by_cases hte : token_expired now s = true
    · rw [hte] at hr
      simp only [if_true] at hr
      rcases hra : refresh_access_token rfO now s with ⟨res, calls⟩
      have := refresh_access_token_calls rfO now s
      rw [hra] at this
      subst this
      rw [hra] at hr
      cases res <;> simp_all
    · simp only [Bool.not_eq_true] at hte
      rw [hte] at hr
      simp at hr
  · intro hne
    rw [callback_session_branch exO rfO now c l s h, hne]
    simp

/-- Witness for claim C10 at a concrete input. -/
theorem callback_ignores_code_with_session_witness :
    truthy (⟨some "S", some "R", some 100, some "L", some "C"⟩ :
        Session).access_token = true ∧
    callback (fun _ => ⟨200, ⟨none, none, none, none, none⟩⟩)
        (fun _ => ⟨200, ⟨none, none, none, none, none⟩⟩) 0
        ⟨none, some "CODE", some "L2"⟩
        ⟨some "S", some "R", some 100, some "L", some "C"⟩ =
      callback (fun _ => ⟨200, ⟨none, none, none, none, none⟩⟩)
        (fun _ => ⟨200, ⟨none, none, none, none, none⟩⟩) 0
        ⟨none, none, none⟩
        ⟨some "S", some "R", some 100, some "L", some "C"⟩ :=
  ⟨by decide,
   (callback_ignores_code_with_session
      (fun _ => ⟨200, ⟨none, none, none, none, none⟩⟩)
      (fun _ => ⟨200, ⟨none, none, none, none, none⟩⟩) 0
      (some "CODE") (some "L2")
      ⟨some "S", some "R", some 100, some "L", some "C"⟩ (by decide)).1⟩

/-! ## Claim C7 -/

/-- After `setKey`, a lookup of the key finds the value just set. -/
theorem lookup_setKey (k v : String) (ps : List (String × String)) :
    lookup k (setKey k v ps) = some v := by
  unfold setKey
  split
  case isTrue hp =>
    induction ps with
    | nil => simp [lookup] at hp
    | cons p rest ih =>
      rcases p with ⟨k2, v2⟩
      by_cases hk : k2 = k
      · subst hk
        have hhead : (if (k2, v2).1 = k2 then (k2, v) else (k2, v2)) = (k2, v) := by
          simp
        rw [List.map_cons, hhead, lookup, if_pos rfl]
      · rw [lookup, if_neg hk] at hp
        have hne : (if (k2, v2).1 = k then (k, v) else (k2, v2)) = (k2, v2) := by
          simp [hk]
        simp only [List.map_cons, hne]
        rw [lookup, if_neg hk]
        exact ih hp
  case isFalse hp =>
    induction ps with
    | nil => simp [lookup]
    | cons p rest ih =>
      rcases p with ⟨k2, v2⟩
      by_cases hk : k2 = k
      · rw [lookup, if_pos hk] at hp
        simp at hp
      · rw [lookup, if_neg hk] at hp
        simp only [List.cons_append]
        rw [lookup, if_neg hk]
        exact ih hp

/-- A nonempty string wrapped in `some` is truthy. -/
theorem truthy_some_of_ne (l : String) (hl : l ≠ "") : truthy (some l) = true := by
  have hE : l.isEmpty = false := by
    cases hE2 : l.isEmpty
    · rfl
    · exact absurd ((String.isEmpty_iff l).mp hE2) hl
  simp [truthy, hE]

/-- Claim C7 counterexample: a `search_contacts` request carrying a
`locationId` in the query (`"Q"`), in the JSON body (`"B"`) and in the
session (`"S"`), all different: the resolved identifier sent upstream is
the body value `"B"`, not the query value `"Q"` — the query parameter does
not have highest precedence (this handler never reads it). -/
theorem contacts_query_param_does_not_win :
    search_contacts_resolve ⟨[("locationId", "Q")], [("locationId", "B")]⟩
        ⟨some "A", some "R", some 100, some "S", some "C"⟩ =
      .ok [("locationId", "B")] ∧
    lookup "locationId" [("locationId", "B")] = some "B" ∧
    some "B" ≠ some "Q" :=
  ⟨by rfl, by rfl, by simp⟩

/-- Claim C7 (corrected): tenant resolution is two-tier and
handler-specific, with no typed `MissingTenantIdentifier`:
`get_campaigns` consults the query params (a key-presence check) and then
the session — never the body; `search_contacts` consults the JSON body (a
truthiness check) and then the session — never the query params; when no
tier resolves the identifier each returns an HTTP 400 JSON message naming
`locationId`. -/
theorem tenant_resolution_behavior (args body : List (String × String))
    (s : Session) :
    (∀ v : String, lookup "locationId" args = some v →
      get_campaigns_params args s = .ok args) ∧
    (∀ l : String, lookup "locationId" args = none → s.location_id = some l →
      l ≠ "" →
      ∃ ps : List (String × String), get_campaigns_params args s = .ok ps ∧
        lookup "locationId" ps = some l) ∧
    (lookup "locationId" args = none → truthy s.location_id = false →
      get_campaigns_params args s =
        .error "No locationId found in session or request.") ∧
    (∀ args2 : List (String × String),
      search_contacts_resolve ⟨args, body⟩ s =
        search_contacts_resolve ⟨args2, body⟩ s) ∧
    (∀ v : String, lookup "locationId" body = some v → v ≠ "" →
      search_contacts_resolve ⟨args, body⟩ s = .ok body) ∧
    (∀ l : String, truthy (lookup "locationId" body) = false →
      s.location_id = some l → l ≠ "" →
      ∃ ps : List (String × String),
        search_contacts_resolve ⟨args, body⟩ s = .ok ps ∧
        lookup "locationId" ps = some l) ∧
    (truthy (lookup "locationId" body) = false →
      truthy s.location_id = false →
      search_contacts_resolve ⟨args, body⟩ s =
        .error "No locationId found in request or session.") := by
  refine ⟨?_, ?_, ?_, fun _ => rfl, ?_, ?_, ?_⟩
  · intro v hv
    simp [get_campaigns_params, hv]
  · intro l hq hs hl
    refine ⟨setKey "locationId" l args, ?_, lookup_setKey "locationId" l args⟩
    have ht := truthy_some_of_ne l hl
    simp [get_campaigns_params, hq, hs, ht]
  · intro hq hs
    simp [get_campaigns_params, hq, hs]
  · intro v hv hne
    have : truthy (lookup "locationId" body) = true := by
      rw [hv]
      exact truthy_some_of_ne v hne
    simp [search_contacts_resolve, search_contacts_body, this]
  · intro l hb hs hl
    refine ⟨setKey "locationId" l body, ?_, lookup_setKey "locationId" l body⟩
    have ht := truthy_some_of_ne l hl
    simp [search_contacts_resolve, search_contacts_body, hb, hs, ht]
  · intro hb hs
    simp [search_contacts_resolve, search_contacts_body, hb, hs]

/-- Witness for claim C7 at a concrete input. -/
theorem tenant_resolution_behavior_witness :
    get_campaigns_params [("locationId", "Q")]
        ⟨some "A", some "R", some 100, some "S", some "C"⟩ =
      .ok [("locationId", "Q")] ∧
    search_contacts_resolve ⟨[], []⟩ ⟨some "A", some "R", some 100, none, none⟩ =
      .error "No locationId found in request or session." := by
  have t := tenant_resolution_behavior [("locationId", "Q")] []
    ⟨some "A", some "R", some 100, some "S", some "C"⟩
  have u := tenant_resolution_behavior [] []
    ⟨some "A", some "R", some 100, none, none⟩
  exact ⟨t.1 "Q" (by rfl), u.2.2.2.2.2.2 (by decide) (by decide)⟩

/-! ## Claim C8 -/

/-- Claim C8 counterexample: a search returning one summary record that
lacks an `id` yields zero detailed entries — the record is skipped
entirely (`continue`), no detail call is made and no inline entry is
produced, so "one detail call per summary record" fails as stated. -/
theorem enrich_skips_idless_summary :
    enrich_conversations (fun _ => ⟨200, some "d", "d"⟩) [⟨none⟩] =
      ([] : List DetailEntry) ∧
    ([] : List DetailEntry).length ≠ 1 :=
  ⟨by rfl, by simp⟩

/-- Claim C8 (corrected): summary records lacking a truthy `id` are skipped
(no detail call, no entry); for a search whose summaries all carry ids, one
detail call is issued per record in order — the result is exactly the map
of the per-record fetch, so a per-item failure yields an inline error
object in that item's position without aborting the batch; in particular 3
summaries whose second detail call returns HTTP 500 yield exactly 3
entries, entry 2 an inline error object and entries 1 and 3 full details. -/
theorem enrich_conversations_behavior (oracle : String → DetailResp)
    (convs : List ConvSummary) (h : ∀ c ∈ convs, truthy c.id = true) :
    enrich_conversations oracle convs =
      convs.map (fun c => detail_entry oracle (c.id.getD "")) ∧
    (∀ o2 : String → DetailResp,
      o2 "c1" = ⟨200, some "d1", "d1"⟩ →
      o2 "c2" = ⟨500, none, "server error"⟩ →
      o2 "c3" = ⟨200, some "d3", "d3"⟩ →
      enrich_conversations o2 [⟨some "c1"⟩, ⟨some "c2"⟩, ⟨some "c3"⟩] =
        [.detail "d1", .fetchError "c2" 500 "server error", .detail "d3"]) := by
  constructor
  · induction convs with
    | nil => rfl
    | cons c rest ih =>
      have hc := h c (by simp)
      simp only [enrich_conversations, hc, if_true, List.map_cons]
      rw [ih (fun x hx => h x (by simp [hx]))]
  · intro o2 h1 h2 h3
    simp only [enrich_conversations, detail_entry, truthy, Option.getD_some,
      h1, h2, h3]
    decide

/-- Witness for claim C8: the three-summary scenario with the second detail
call failing with HTTP 500. -/
theorem enrich_conversations_behavior_witness :
    (∀ c ∈ [(⟨some "c1"⟩ : ConvSummary), ⟨some "c2"⟩, ⟨some "c3"⟩],
      truthy c.id = true) ∧
    enrich_conversations
        (fun cid => if cid = "c1" then ⟨200, some "d1", "d1"⟩
          else if cid = "c2" then ⟨500, none, "server error"⟩
          else ⟨200, some "d3", "d3"⟩)
        [⟨some "c1"⟩, ⟨some "c2"⟩, ⟨some "c3"⟩] =
      [.detail "d1", .fetchError "c2" 500 "server error", .detail "d3"] :=
  ⟨by decide,
   (enrich_conversations_behavior
      (fun cid => if cid = "c1" then ⟨200, some "d1", "d1"⟩
        else if cid = "c2" then ⟨500, none, "server error"⟩
        else ⟨200, some "d3", "d3"⟩)
      [⟨some "c1"⟩, ⟨some "c2"⟩, ⟨some "c3"⟩] (by decide)).2
      (fun cid => if cid = "c1" then ⟨200, some "d1", "d1"⟩
        else if cid = "c2" then ⟨500, none, "server error"⟩
        else ⟨200, some "d3", "d3"⟩)
      (by rfl) (by rfl) (by rfl)⟩

end RebderApp
